import Mathlib

/-!
Verification development for the e-ink layer compositing and dithering engine
(`eink_composer/composer.py`).  The compositing engine itself is translated
from `composer.py`; the leaf modules it imports (`dithering.py`,
`image_ops.py`, `text.py`) are not part of the available sources, so they are
modelled from the specification (each such definition carries a doc comment
starting with `Modelled from the spec:`).

Pixel grids are embedded as a shape (`h`, `w`) together with a total sampling
function, mirroring a numpy 2-D `uint8` array (shape plus element lookup);
pixel values are `Nat` (the code only ever stores values in `0..255`).
Python `float` parameters (brightness, contrast, error-diffusion buffers) are
embedded as rationals.  Fallible steps return `Except RenderError`.
-/

namespace EinkCli

/-- A 2-D grayscale pixel grid: numpy array of shape `(h, w)` with a total
lookup function (only indices `r < h`, `c < w` are ever meaningful). -/
structure Grid where
  h : Nat
  w : Nat
  data : Nat → Nat → Nat

/-- Error kinds of the engine (spec section 7): `invalidDimension` for
non-positive resize targets, `invalidInput` for empty grids handed to a
dither, `valueError` for a numpy broadcast failure on slice assignment,
`loadError` for an unreadable image path. -/
inductive RenderError where
  | invalidDimension
  | invalidInput
  | valueError
  | loadError
deriving DecidableEq

/-- `resize_mode` literals of `ImageLayer`. -/
inductive ResizeMode where
  | stretch
  | fit
  | crop
deriving DecidableEq

/-- `dither_mode` literals of `ImageLayer` (`'floyd-steinberg' | 'threshold' | 'none'`). -/
inductive DitherMode where
  | floydSteinberg
  | threshold
  | noDither
deriving DecidableEq

/-- Modelled from the spec: `image_ops.flip_horizontal` (missing from src) —
"reverse columns". -/
def flip_horizontal (g : Grid) : Grid :=
  ⟨g.h, g.w, fun r c => g.data r (g.w - 1 - c)⟩

/-- Modelled from the spec: `image_ops.flip_vertical` (missing from src) —
"reverse rows". -/
def flip_vertical (g : Grid) : Grid :=
  ⟨g.h, g.w, fun r c => g.data (g.h - 1 - r) c⟩

/-- Modelled from the spec: `image_ops.rotate_ccw_90` (missing from src) —
one counter-clockwise quarter turn, width/height swapped. -/
def rotate_ccw_90 (g : Grid) : Grid :=
  ⟨g.w, g.h, fun r c => g.data c (g.w - 1 - r)⟩

/-- Modelled from the spec: `image_ops.invert_colors` (missing from src) —
pixel becomes `255 - pixel`. -/
def invert_colors (g : Grid) : Grid :=
  ⟨g.h, g.w, fun r c => 255 - g.data r c⟩

/-- Clamp a rational to `0..255` and truncate to a `Nat` pixel value. -/
def clampPixel (q : ℚ) : Nat :=
  if q ≤ 0 then 0 else if 255 ≤ q then 255 else q.floor.toNat

/-- Modelled from the spec: `image_ops.adjust_brightness_contrast` (missing
from src) — pixel becomes `clamp(0,255, pixel*brightness + contrast*255)`. -/
def adjust_brightness_contrast (g : Grid) (brightness contrast : ℚ) : Grid :=
  ⟨g.h, g.w, fun r c => clampPixel ((g.data r c : ℚ) * brightness + contrast * 255)⟩

/-- Scaled dimensions for `fit`: the largest aspect-preserving size that fits
inside the `tw × th` box. -/
def fitDims (w h tw th : Nat) : Nat × Nat :=
  if tw * h ≤ th * w then (tw, h * tw / w) else (w * th / h, th)

/-- Scaled dimensions for `crop`: the smallest aspect-preserving size that
covers the `tw × th` box. -/
def coverDims (w h tw th : Nat) : Nat × Nat :=
  if tw * h ≤ th * w then (w * th / h, th) else (tw, h * tw / w)

/-- Nearest-neighbor sample of `g` viewed as scaled to `sh × sw`. -/
def sampleNN (g : Grid) (sh sw : Nat) (r c : Nat) : Nat :=
  g.data (r * g.h / sh) (c * g.w / sw)

/-- Modelled from the spec: `image_ops.resize_image` (missing from src).
Fails with `InvalidDimension` when `target_w` or `target_h` is non-positive;
otherwise returns a grid of exactly the target shape: `stretch` resamples
ignoring aspect ratio, `fit` letterboxes with white (255) centered, `crop`
covers then crops at the (clamped) anchor, centered when absent. -/
def resize_image (g : Grid) (target_w target_h : Int) (mode : ResizeMode)
    (crop_x crop_y : Option Int) : Except RenderError Grid :=
  if target_w ≤ 0 ∨ target_h ≤ 0 then .error .invalidDimension else
  let tw := target_w.toNat
  let th := target_h.toNat
  match mode with
  | .stretch => .ok ⟨th, tw, fun r c => sampleNN g th tw r c⟩
  | .fit =>
      let sw := (fitDims g.w g.h tw th).1
      let sh := (fitDims g.w g.h tw th).2
      let ox := (tw - sw) / 2
      let oy := (th - sh) / 2
      .ok ⟨th, tw, fun r c =>
        if oy ≤ r ∧ r < oy + sh ∧ ox ≤ c ∧ c < ox + sw then
          sampleNN g sh sw (r - oy) (c - ox)
        else 255⟩
  | .crop =>
      let sw := (coverDims g.w g.h tw th).1
      let sh := (coverDims g.w g.h tw th).2
      let ax := min (match crop_x with | some v => v.toNat | none => (sw - tw) / 2) (sw - tw)
      let ay := min (match crop_y with | some v => v.toNat | none => (sh - th) / 2) (sh - th)
      .ok ⟨th, tw, fun r c => sampleNN g sh sw (r + ay) (c + ax)⟩

/-- Modelled from the spec: `dithering.threshold_dither` (missing from src) —
pixel becomes 255 if pixel > 128 else 0; fails with `InvalidInput` on an
empty grid. -/
def threshold_dither (g : Grid) : Except RenderError Grid :=
  if g.h = 0 ∨ g.w = 0 then .error .invalidInput
  else .ok ⟨g.h, g.w, fun r c => if 128 < g.data r c then 255 else 0⟩

/-- Pointwise update of a 2-D rational buffer. -/
def upd2 (f : Nat → Nat → ℚ) (r c : Nat) (v : ℚ) : Nat → Nat → ℚ :=
  fun r' c' => if r' = r ∧ c' = c then v else f r' c'

/-- One Floyd–Steinberg visit at `(r, c)`: threshold at 128, then push the
quantization error east 7/16, southwest 3/16, south 5/16, southeast 1/16,
dropping weights that fall outside the grid.  State is (error buffer, output
buffer). -/
def fsVisit (h w : Nat) (st : (Nat → Nat → ℚ) × (Nat → Nat → ℚ)) (r c : Nat) :
    (Nat → Nat → ℚ) × (Nat → Nat → ℚ) :=
  let buf := st.1
  let out := st.2
  let v := buf r c
  let o : ℚ := if 128 ≤ v then 255 else 0
  let e := v - o
  let buf := if c + 1 < w then upd2 buf r (c + 1) (buf r (c + 1) + e * 7 / 16) else buf
  let buf := if r + 1 < h ∧ 0 < c then upd2 buf (r + 1) (c - 1) (buf (r + 1) (c - 1) + e * 3 / 16) else buf
  let buf := if r + 1 < h then upd2 buf (r + 1) c (buf (r + 1) c + e * 5 / 16) else buf
  let buf := if r + 1 < h ∧ c + 1 < w then upd2 buf (r + 1) (c + 1) (buf (r + 1) (c + 1) + e / 16) else buf
  (buf, upd2 out r c o)

/-- Modelled from the spec: `dithering.floyd_steinberg_dither` (missing from
src) — row-major error diffusion over a rational working buffer, output 0 if
the accumulated value is below 128 else 255; fails with `InvalidInput` on an
empty grid. -/
def floyd_steinberg_dither (g : Grid) : Except RenderError Grid :=
  if g.h = 0 ∨ g.w = 0 then .error .invalidInput else
  let init : (Nat → Nat → ℚ) × (Nat → Nat → ℚ) :=
    (fun r c => (g.data r c : ℚ), fun _ _ => 0)
  let res := (List.range g.h).foldl
    (fun st r => (List.range g.w).foldl (fun st' c => fsVisit g.h g.w st' r c) st) init
  .ok ⟨g.h, g.w, fun r c => (res.2 r c).num.toNat⟩

/-- Modelled from the spec: `text.render_text` (missing from src) — the
fixed-font contract only: each character occupies a 5×7 glyph cell advanced
by 6 columns; ink pixels receive `color`, everything else is untouched, and
drawing is silently clipped to the canvas.  The actual glyph shapes are not
specified, so every character uses the same placeholder (solid) glyph. -/
def textInk (text : String) (x y : Int) (hgt wid r c : Nat) : Bool :=
  (List.range text.length).any fun i =>
    decide (x + 6 * i ≤ (c : Int) ∧ (c : Int) < x + 6 * i + 5 ∧
            y ≤ (r : Int) ∧ (r : Int) < y + 7 ∧ r < hgt ∧ c < wid)

/-- Modelled from the spec: `text.render_text` — write the text's ink pixels
(at placeholder glyphs, see `textInk`) in `color` onto the canvas, clipped. -/
def render_text (text : String) (x y : Int) (canvas : Grid) (color : Nat) : Grid :=
  ⟨canvas.h, canvas.w, fun r c =>
    if textInk text x y canvas.h canvas.w r c then color else canvas.data r c⟩

/-- Fields of `ImageLayer` beyond the shared `Layer` header
(composer.py, `@dataclass class ImageLayer`). -/
structure ImageLayerData where
  image_path : Option String := none
  image_data : Option Grid := none
  resize_mode : ResizeMode := .fit
  dither_mode : DitherMode := .floydSteinberg
  brightness : ℚ := 1
  contrast : ℚ := 0
  rotate : Int := 0
  flip_h : Bool := false
  flip_v : Bool := false
  crop_x : Option Int := none
  crop_y : Option Int := none

/-- Fields of `TextLayer` beyond the shared header. -/
structure TextLayerData where
  text : String := ""
  color : Nat := 0

/-- Fields of `RectangleLayer` beyond the shared header. -/
structure RectangleLayerData where
  width : Int := 10
  height : Int := 10
  filled : Bool := true
  color : Nat := 0

/-- The three layer variants (`type` discriminant of the dataclasses). -/
inductive LayerKind where
  | image (d : ImageLayerData)
  | text (d : TextLayerData)
  | rectangle (d : RectangleLayerData)

/-- Shared layer header (`@dataclass class Layer`) plus the variant payload. -/
structure Layer where
  id : String
  visible : Bool := true
  x : Int := 0
  y : Int := 0
  kind : LayerKind

/-- `EinkComposer.__init__`: display dimensions, the ordered layer list and
the mutable canvas (initialized all-white, shape `(height, width)` — an
invariant every canvas mutation of the class preserves). -/
structure EinkComposer where
  width : Nat := 250
  height : Nat := 128
  layers : List Layer := []
  canvas : Grid := ⟨128, 250, fun _ _ => 255⟩

/-- The first-match loop shared by `update_layer`: walk the list in order,
rewrite the first layer whose id matches and report success. -/
def updateFirst (lid : String) (upd : Layer → Layer) : List Layer → Bool × List Layer
  | [] => (false, [])
  | l :: ls =>
    if l.id = lid then (true, upd l :: ls)
    else
      let p := updateFirst lid upd ls
      (p.1, l :: p.2)

/-- `EinkComposer.update_layer` — the dynamic `**kwargs` attribute patch is
embedded as an explicit update function applied to the matched layer; the
lookup loop is translated verbatim (first id match wins, returns `False`
when no layer matches). -/
def update_layer (c : EinkComposer) (layer_id : String) (upd : Layer → Layer) :
    Bool × EinkComposer :=
  let p := updateFirst layer_id upd c.layers
  (p.1, { c with layers := p.2 })

/-- The first-match loop of `toggle_layer`: negate `visible` on the first
layer whose id matches. -/
def toggleFirst (lid : String) : List Layer → Bool × List Layer
  | [] => (false, [])
  | l :: ls =>
    if l.id = lid then (true, { l with visible := !l.visible } :: ls)
    else
      let p := toggleFirst lid ls
      (p.1, l :: p.2)

/-- `EinkComposer.toggle_layer`. -/
def toggle_layer (c : EinkComposer) (layer_id : String) : Bool × EinkComposer :=
  let p := toggleFirst layer_id c.layers
  (p.1, { c with layers := p.2 })

/-- `EinkComposer.remove_layer`: filter the list by id and return `True`
unconditionally. -/
def remove_layer (c : EinkComposer) (layer_id : String) : Bool × EinkComposer :=
  (true, { c with layers := c.layers.filter (fun l => l.id ≠ layer_id) })

/-- Python slice-index normalization for a positive-step slice over an axis
of length `len`: negative indices count from the end, then the index is
clamped into `0..len`. -/
def pySliceIdx (i : Int) (len : Nat) : Nat :=
  (if i < 0 then max ((len : Int) + i) 0 else min i (len : Int)).toNat

/-- numpy broadcast compatibility of one source dimension against one
assignment-target dimension: equal, or source dimension 1. -/
def broadcastDimOK (src tgt : Nat) : Bool := src = tgt || src = 1

/-- The compositing blit of `_render_image_layer` (composer.py:236-242):
`canvas[y:y_end, x:x_end] = img[:y_end-y, :x_end-x]` guarded by
`y < height and x < width`, with numpy slice normalization (negative starts
wrap to the end of the axis) and the numpy broadcast rule for the
assignment; a shape mismatch raises `ValueError`. -/
def blit (wid hgt : Nat) (canvas img : Grid) (x y : Int) : Except RenderError Grid :=
  let y_end : Int := min (y + img.h) (hgt : Int)
  let x_end : Int := min (x + img.w) (wid : Int)
  if y < (hgt : Int) ∧ x < (wid : Int) then
    let rs := pySliceIdx y canvas.h
    let re := pySliceIdx y_end canvas.h
    let cs := pySliceIdx x canvas.w
    let ce := pySliceIdx x_end canvas.w
    let sre := pySliceIdx (y_end - y) img.h
    let sce := pySliceIdx (x_end - x) img.w
    if broadcastDimOK sre (re - rs) ∧ broadcastDimOK sce (ce - cs) then
      .ok ⟨canvas.h, canvas.w, fun r c =>
        if rs ≤ r ∧ r < re ∧ cs ≤ c ∧ c < ce then
          img.data (if sre = 1 then 0 else r - rs) (if sce = 1 then 0 else c - cs)
        else canvas.data r c⟩
    else .error .valueError
  else .ok canvas

/-- The image-loading step of `_render_image_layer` (composer.py:190-197):
prefer in-memory `image_data`; otherwise a truthy (non-empty) `image_path`
is loaded through the decode collaborator `fsys` (raising `LoadError` when
unreadable); otherwise the layer is skipped (`.ok none`). -/
def loadStage (fsys : String → Option Grid) (d : ImageLayerData) :
    Except RenderError (Option Grid) :=
  match d.image_data with
  | some g => .ok (some g)
  | none =>
    match d.image_path with
    | some p =>
      if p = "" then .ok none
      else
        match fsys p with
        | some g => .ok (some g)
        | none => .error .loadError
    | none => .ok none

/-- The transform step of `_render_image_layer` (composer.py:199-211):
horizontal flip, then vertical flip, then `(rotate % 360) // 90`
counter-clockwise quarter turns (skipped entirely when `rotate == 0`). -/
def transformStage (d : ImageLayerData) (g : Grid) : Grid :=
  let g1 := if d.flip_h then flip_horizontal g else g
  let g2 := if d.flip_v then flip_vertical g1 else g1
  if d.rotate ≠ 0 then
    rotate_ccw_90^[((d.rotate % 360) / 90).toNat] g2
  else g2

/-- The footprint-and-resize step of `_render_image_layer`
(composer.py:213-223): the target size is `(width - x, height - y)` and the
image is resized to it exactly when its shape differs. -/
def resizeStage (wid hgt : Nat) (x y : Int) (d : ImageLayerData) (g : Grid) :
    Except RenderError Grid :=
  let target_width : Int := (wid : Int) - x
  let target_height : Int := (hgt : Int) - y
  if (g.h : Int) = target_height ∧ (g.w : Int) = target_width then .ok g
  else resize_image g target_width target_height d.resize_mode d.crop_x d.crop_y

/-- The brightness/contrast step of `_render_image_layer`
(composer.py:226-228), skipped at the neutral parameters. -/
def bcStage (d : ImageLayerData) (g : Grid) : Grid :=
  if d.brightness ≠ 1 ∨ d.contrast ≠ 0 then
    adjust_brightness_contrast g d.brightness d.contrast
  else g

/-- The dithering step of `_render_image_layer` (composer.py:230-234). -/
def ditherStage (d : ImageLayerData) (g : Grid) : Except RenderError Grid :=
  match d.dither_mode with
  | .floydSteinberg => floyd_steinberg_dither g
  | .threshold => threshold_dither g
  | .noDither => .ok g

/-- `EinkComposer._render_image_layer`: the full per-image-layer pipeline. -/
def renderImageLayer (fsys : String → Option Grid) (wid hgt : Nat) (layer : Layer)
    (d : ImageLayerData) (canvas : Grid) : Except RenderError Grid :=
  if layer.visible = false then .ok canvas else
  match loadStage fsys d with
  | .error e => .error e
  | .ok none => .ok canvas
  | .ok (some img0) =>
    let img1 := transformStage d img0
    match resizeStage wid hgt layer.x layer.y d img1 with
    | .error e => .error e
    | .ok img2 =>
      let img3 := bcStage d img2
      match ditherStage d img3 with
      | .error e => .error e
      | .ok img4 => blit wid hgt canvas img4 layer.x layer.y

/-- `EinkComposer._render_text_layer`. -/
def renderTextLayer (layer : Layer) (d : TextLayerData) (canvas : Grid) : Grid :=
  if layer.visible = false ∨ d.text = "" then canvas
  else render_text d.text layer.x layer.y canvas d.color

/-- `EinkComposer._render_rectangle_layer`: clip against the canvas, no-op
when the clipped rectangle is empty, otherwise fill the block or draw the
1-pixel outline (top row, bottom row, left column, right column). -/
def renderRectangleLayer (wid hgt : Nat) (layer : Layer) (d : RectangleLayerData)
    (canvas : Grid) : Grid :=
  if layer.visible = false then canvas else
  let x1 : Int := max 0 layer.x
  let y1 : Int := max 0 layer.y
  let x2 : Int := min (wid : Int) (layer.x + d.width)
  let y2 : Int := min (hgt : Int) (layer.y + d.height)
  if x1 ≥ x2 ∨ y1 ≥ y2 then canvas
  else if d.filled then
    ⟨canvas.h, canvas.w, fun r c =>
      if y1 ≤ (r : Int) ∧ (r : Int) < y2 ∧ x1 ≤ (c : Int) ∧ (c : Int) < x2 then
        d.color
      else canvas.data r c⟩
  else
    ⟨canvas.h, canvas.w, fun r c =>
      if (((r : Int) = y1 ∨ (r : Int) = y2 - 1) ∧ x1 ≤ (c : Int) ∧ (c : Int) < x2) ∨
         (((c : Int) = x1 ∨ (c : Int) = x2 - 1) ∧ y1 ≤ (r : Int) ∧ (r : Int) < y2) then
        d.color
      else canvas.data r c⟩

/-- The per-layer dispatch of `EinkComposer.render` (composer.py:291-297). -/
def renderLayer (fsys : String → Option Grid) (wid hgt : Nat) (layer : Layer)
    (canvas : Grid) : Except RenderError Grid :=
  match layer.kind with
  | .image d => renderImageLayer fsys wid hgt layer d canvas
  | .text d => .ok (renderTextLayer layer d canvas)
  | .rectangle d => .ok (renderRectangleLayer wid hgt layer d canvas)

/-- The layer loop of `EinkComposer.render`: thread the canvas through each
layer in declaration order; on a raised error the canvas keeps the state it
had when the error occurred. -/
def renderLayers (fsys : String → Option Grid) (wid hgt : Nat) :
    List Layer → Grid → Option RenderError × Grid
  | [], cv => (none, cv)
  | l :: ls, cv =>
    match renderLayer fsys wid hgt l cv with
    | .error e => (some e, cv)
    | .ok cv' => renderLayers fsys wid hgt ls cv'

/-- Whole-canvas transform literals of `render`'s `transformations` option. -/
inductive FinalTransform where
  | flipH
  | flipV
  | rotate90
  | invert
deriving DecidableEq

/-- `final_dither` literals of `render`. -/
inductive FinalDither where
  | floydSteinberg
  | threshold
deriving DecidableEq

/-- Render-time options of `EinkComposer.render`. -/
structure RenderOptions where
  background_color : Nat := 255
  final_dither : Option FinalDither := none
  transformations : List FinalTransform := []

/-- The optional final dithering pass of `render` (composer.py:302-305). -/
def applyFinalDither (o : Option FinalDither) (g : Grid) : Except RenderError Grid :=
  match o with
  | none => .ok g
  | some .floydSteinberg => floyd_steinberg_dither g
  | some .threshold => threshold_dither g

/-- The ordered whole-canvas transform list of `render`
(composer.py:308-318). -/
def applyTransforms (ts : List FinalTransform) (g : Grid) : Grid :=
  ts.foldl
    (fun acc t =>
      match t with
      | .flipH => flip_horizontal acc
      | .flipV => flip_vertical acc
      | .rotate90 => rotate_ccw_90 acc
      | .invert => invert_colors acc)
    g

/-- `EinkComposer.render`: clear the canvas to the background color, render
every layer in order, then apply the optional final dither and the final
transform list to a copy of the composited canvas.  Returns the output (or
the raised error) together with the composer as it is left behind (same
layers, mutated scratch canvas). -/
def render (fsys : String → Option Grid) (c : EinkComposer) (opts : RenderOptions) :
    Except RenderError Grid × EinkComposer :=
  let cleared : Grid := ⟨c.height, c.width, fun _ _ => opts.background_color⟩
  match renderLayers fsys c.width c.height c.layers cleared with
  | (some e, cv) => (.error e, { c with canvas := cv })
  | (none, cv) =>
    let out :=
      match applyFinalDither opts.final_dither cv with
      | .error e => Except.error e
      | .ok res => Except.ok (applyTransforms opts.transformations res)
    (out, { c with canvas := cv })

/-- Shape of a successful render/resize result. -/
def gridDims : Except RenderError Grid → Option (Nat × Nat)
  | .ok g => some (g.h, g.w)
  | .error _ => none

/-- Pixel of a successful render result. -/
def pixelAt (e : Except RenderError Grid) (r c : Nat) : Option Nat :=
  match e with
  | .ok g => some (g.data r c)
  | .error _ => none

/-! ### Concrete fixtures used by the witnesses and counterexamples -/

/-- A decode collaborator that can read no path (no layer below uses paths). -/
def fs0 : String → Option Grid := fun _ => none

/-- Default render options (white background, no final dither, no transforms). -/
def opts0 : RenderOptions := {}

/-- A 4×4 uniform test image. -/
def demoImg : Grid := ⟨4, 4, fun _ _ => 100⟩

/-- An image layer with neither `image_data` nor `image_path`. -/
def emptyImgLayer : Layer := { id := "e", kind := .image {} }

/-- Image payload placed at a negative x below: its 4×5 shape equals the
footprint of `negLayer` on a 4×4 canvas, so no resize happens. -/
def negImgData : ImageLayerData :=
  { image_data := some ⟨4, 5, fun _ _ => 0⟩, dither_mode := .noDither }

/-- A visible image layer at x = −1. -/
def negLayer : Layer := { id := "img", x := -1, y := 0, kind := .image negImgData }

/-- A 4×4 composition holding only `negLayer`. -/
def negComp : EinkComposer :=
  { width := 4, height := 4, layers := [negLayer], canvas := ⟨4, 4, fun _ _ => 255⟩ }

/-- A small 2×2 image payload. -/
def offImgData : ImageLayerData := { image_data := some ⟨2, 2, fun _ _ => 7⟩ }

/-- A visible image layer positioned at x = width on a 10-wide canvas. -/
def offLayer : Layer := { id := "i", x := 10, y := 0, kind := .image offImgData }

/-- A 10×10 composition holding only `offLayer`. -/
def offComp : EinkComposer :=
  { width := 10, height := 10, layers := [offLayer], canvas := ⟨10, 10, fun _ _ => 255⟩ }

/-- A visible image layer positioned at y = 12 on a 10-tall canvas. -/
def offLayerY : Layer := { id := "j", x := 0, y := 12, kind := .image offImgData }

/-- A 10×10 all-white canvas. -/
def demoCanvas10 : Grid := ⟨10, 10, fun _ _ => 255⟩

/-- The 50×50 all-mid-gray (128) stretch/threshold payload of the spec's
section-8 scenario. -/
def grayImgData : ImageLayerData :=
  { image_data := some ⟨50, 50, fun _ _ => 128⟩, resize_mode := .stretch,
    dither_mode := .threshold }

/-- The mid-gray layer at (0,0). -/
def grayLayer : Layer := { id := "g", kind := .image grayImgData }

/-- The 100×100 composition of the spec's section-8 threshold scenario. -/
def grayComp : EinkComposer :=
  { width := 100, height := 100, layers := [grayLayer], canvas := ⟨100, 100, fun _ _ => 255⟩ }

/-- A visible text layer with id "a". -/
def dupA : Layer := { id := "a", kind := .text {} }

/-- A composition whose two layers share the id "a". -/
def dupComp : EinkComposer :=
  { width := 10, height := 10, layers := [dupA, dupA], canvas := ⟨10, 10, fun _ _ => 255⟩ }

/-- A visible text layer with id "b". -/
def bLayer : Layer := { id := "b", kind := .text {} }

/-- A composition with a non-matching head layer followed by two layers
sharing the id "a". -/
def dupComp3 : EinkComposer :=
  { width := 10, height := 10, layers := [bLayer, dupA, dupA],
    canvas := ⟨10, 10, fun _ _ => 255⟩ }

/-- The spec's fully-off-canvas rectangle payload (50×50 at (1000,1000)). -/
def rectOffD : RectangleLayerData := { width := 50, height := 50 }

/-- The off-canvas rectangle layer. -/
def rectOffL : Layer := { id := "r", x := 1000, y := 1000, kind := .rectangle rectOffD }

/-- A 250×128 all-white canvas. -/
def demoCanvasBig : Grid := ⟨128, 250, fun _ _ => 255⟩

/-- A 4×4 all-white canvas. -/
def demoCanvas4 : Grid := ⟨4, 4, fun _ _ => 255⟩

/-- A 2×2 uniform image of value 7. -/
def smallImg : Grid := ⟨2, 2, fun _ _ => 7⟩

/-! ### Helper lemmas (shared) -/

/-- `render` leaves the composer's width, height and layer list untouched;
only the scratch canvas changes. -/
theorem render_preserves_fields (fsys : String → Option Grid) (c : EinkComposer)
    (opts : RenderOptions) :
    (render fsys c opts).2.width = c.width ∧ (render fsys c opts).2.height = c.height ∧
    (render fsys c opts).2.layers = c.layers := by
  unfold render
  rcases h : renderLayers fsys c.width c.height c.layers
      ⟨c.height, c.width, fun _ _ => opts.background_color⟩ with ⟨oe, cv⟩
  cases oe <;> simp [h]

/-- The output of `render` depends only on the composer's width, height and
layer list, never on the incoming scratch canvas (which is cleared first). -/
theorem render_fst_congr (fsys : String → Option Grid) (opts : RenderOptions)
    (c c' : EinkComposer) (h1 : c.width = c'.width) (h2 : c.height = c'.height)
    (h3 : c.layers = c'.layers) :
    (render fsys c opts).1 = (render fsys c' opts).1 := by
  unfold render
  rw [h1, h2, h3]

/-- `updateFirst` rewrites exactly the first id match of the list. -/
theorem updateFirst_append (lid : String) (upd : Layer → Layer) (ls₁ ls₂ : List Layer)
    (l : Layer) (hpre : ∀ l' ∈ ls₁, l'.id ≠ lid) (hl : l.id = lid) :
    updateFirst lid upd (ls₁ ++ l :: ls₂) = (true, ls₁ ++ upd l :: ls₂) := by
  induction ls₁ with
  | nil => simp [updateFirst, hl]
  | cons a as ih =>
    have ha : a.id ≠ lid := hpre a (by simp)
    simp only [List.cons_append, updateFirst, if_neg ha, List.append_eq]
    rw [ih (fun l' hl' => hpre l' (by simp [hl']))]

/-- `toggleFirst` toggles exactly the first id match of the list. -/
theorem toggleFirst_append (lid : String) (ls₁ ls₂ : List Layer)
    (l : Layer) (hpre : ∀ l' ∈ ls₁, l'.id ≠ lid) (hl : l.id = lid) :
    toggleFirst lid (ls₁ ++ l :: ls₂) =
      (true, ls₁ ++ { l with visible := !l.visible } :: ls₂) := by
  induction ls₁ with
  | nil => simp [toggleFirst, hl]
  | cons a as ih =>
    have ha : a.id ≠ lid := hpre a (by simp)
    simp only [List.cons_append, toggleFirst, if_neg ha, List.append_eq]
    rw [ih (fun l' hl' => hpre l' (by simp [hl']))]

/-- `updateFirst` reports failure and returns the list unchanged when no id
matches. -/
theorem updateFirst_not_found (lid : String) (upd : Layer → Layer) (ls : List Layer)
    (h : ∀ l ∈ ls, l.id ≠ lid) : updateFirst lid upd ls = (false, ls) := by
  induction ls with
  | nil => rfl
  | cons a as ih =>
    simp only [updateFirst, if_neg (h a (by simp))]
    rw [ih (fun l hl => h l (by simp [hl]))]

/-- `toggleFirst` reports failure and returns the list unchanged when no id
matches. -/
theorem toggleFirst_not_found (lid : String) (ls : List Layer)
    (h : ∀ l ∈ ls, l.id ≠ lid) : toggleFirst lid ls = (false, ls) := by
  induction ls with
  | nil => rfl
  | cons a as ih =>
    simp only [toggleFirst, if_neg (h a (by simp))]
    rw [ih (fun l hl => h l (by simp [hl]))]

/-- `rotate_ccw_90` iterated any number of times keeps both dimensions
positive. -/
theorem rotate_iter_pos (n : Nat) (g : Grid) (hh : 0 < g.h) (hw : 0 < g.w) :
    0 < (rotate_ccw_90^[n] g).h ∧ 0 < (rotate_ccw_90^[n] g).w := by
  induction n generalizing g with
  | zero => simpa using ⟨hh, hw⟩
  | succ n ih =>
    rw [Function.iterate_succ_apply]
    exact ih (rotate_ccw_90 g) hw hh

/-- The flip/rotate transform step keeps both dimensions positive. -/
theorem transformStage_pos (d : ImageLayerData) (g : Grid) (hh : 0 < g.h) (hw : 0 < g.w) :
    0 < (transformStage d g).h ∧ 0 < (transformStage d g).w := by
  unfold transformStage
  have h1 : 0 < (if d.flip_h then flip_horizontal g else g).h ∧
      0 < (if d.flip_h then flip_horizontal g else g).w := by
    cases d.flip_h <;> simpa [flip_horizontal] using ⟨hh, hw⟩
  have h2 : 0 < (if d.flip_v then flip_vertical (if d.flip_h then flip_horizontal g else g)
        else (if d.flip_h then flip_horizontal g else g)).h ∧
      0 < (if d.flip_v then flip_vertical (if d.flip_h then flip_horizontal g else g)
        else (if d.flip_h then flip_horizontal g else g)).w := by
    cases d.flip_v <;> simpa [flip_vertical] using h1
  by_cases hr : d.rotate ≠ 0
  · rw [if_pos hr]
    exact rotate_iter_pos _ _ h2.1 h2.2
  · rw [if_neg hr]
    exact h2

/-- Python slice normalization of a non-negative index is a plain clamp. -/
theorem pySliceIdx_eq (i : Int) (len : Nat) (h0 : 0 ≤ i) :
    pySliceIdx i len = min i.toNat len := by
  unfold pySliceIdx
  rw [if_neg (by omega)]
  omega

/-! ### Claim theorems -/

/-- C1: for every image layer at `(x, y)` on a `wid × hgt` canvas (whenever
the footprint is positive, i.e. `x < wid` and `y < hgt`), the resize step of
the compositing engine yields a grid of exactly `(wid − x) × (hgt − y)` — the
remaining canvas area to the bottom-right corner — regardless of every other
field of the layer. -/
theorem C1_resize_footprint (wid hgt : Nat) (x y : Int) (d : ImageLayerData) (g : Grid)
    (hx : x < (wid : Int)) (hy : y < (hgt : Int)) :
    gridDims (resizeStage wid hgt x y d g) =
      some (((hgt : Int) - y).toNat, ((wid : Int) - x).toNat) := by
  unfold resizeStage
  by_cases hsh : (g.h : Int) = (hgt : Int) - y ∧ (g.w : Int) = (wid : Int) - x
  · rw [if_pos hsh]
    unfold gridDims
    simp only [Option.some.injEq, Prod.mk.injEq]
    omega
  · rw [if_neg hsh]
    unfold resize_image
    rw [if_neg (by omega)]
    cases d.resize_mode <;> rfl

/-- Witness for C1 at a concrete input: canvas 10×8, layer at (3, 2), a 4×4
source — the resize step returns a 6×7 (rows × cols) grid. -/
theorem C1_resize_footprint_witness :
    (3 : Int) < 10 ∧ (2 : Int) < 8 ∧
    gridDims (resizeStage 10 8 3 2 {} demoImg) = some (6, 7) :=
  ⟨by decide, by decide, C1_resize_footprint 10 8 3 2 {} demoImg (by decide) (by decide)⟩

/-- C2: rendering is a pure function of the composition and the options —
calling `render` twice in succession (the second call starting from the
composer state the first one left behind) produces byte-for-byte identical
outputs, and neither call changes the layer list. -/
theorem C2_render_pure (fsys : String → Option Grid) (c : EinkComposer)
    (opts : RenderOptions) :
    (render fsys c opts).1 = (render fsys (render fsys c opts).2 opts).1 ∧
    (render fsys c opts).2.layers = c.layers ∧
    (render fsys (render fsys c opts).2 opts).2.layers = c.layers := by
  obtain ⟨hw, hh, hl⟩ := render_preserves_fields fsys c opts
  refine ⟨render_fst_congr fsys opts c _ hw.symm hh.symm hl.symm, hl, ?_⟩
  exact (render_preserves_fields fsys _ opts).2.2.trans hl

/-- C3 counterexample: a visible image layer at the negative position
x = −1 on a 4×4 canvas (with a source already matching its 4×5 footprint)
makes `render` raise the numpy broadcast `ValueError` instead of drawing the
in-bounds portion: the negative slice start wraps to the end of the axis,
leaving a 1-column assignment target for a 5-column source. -/
theorem C3_negative_position_raises :
    (render fs0 negComp opts0).1 = .error .valueError := by rfl

/-- C3 (amended): for non-negative layer positions the blit is clipped and
never wrapped — the result keeps the canvas shape, every pixel inside the
intersection of the layer footprint with the canvas receives the image
pixel, and every pixel outside it is left unchanged.  (For negative
positions the code instead raises `ValueError`, see the counterexample.) -/
theorem C3_blit_clips (wid hgt : Nat) (canvas img : Grid) (x y : Int)
    (hx : 0 ≤ x) (hy : 0 ≤ y) (hch : canvas.h = hgt) (hcw : canvas.w = wid) (r c : Nat) :
    pixelAt (blit wid hgt canvas img x y) r c =
      some (if y ≤ (r : Int) ∧ (r : Int) < min (y + img.h) (hgt : Int) ∧
               x ≤ (c : Int) ∧ (c : Int) < min (x + img.w) (wid : Int) then
          img.data ((r : Int) - y).toNat ((c : Int) - x).toNat
        else canvas.data r c) := by
  subst hch hcw
  simp only [blit]
  by_cases hg : y < (canvas.h : Int) ∧ x < (canvas.w : Int)
  case neg =>
    rw [if_neg hg]
    simp only [pixelAt, Option.some.injEq]
    rw [if_neg (by omega)]
  case pos =>
    rw [if_pos hg]
    obtain ⟨hgy, hgx⟩ := hg
    rw [pySliceIdx_eq y canvas.h hy, pySliceIdx_eq x canvas.w hx,
        pySliceIdx_eq (min (y + (img.h : Int)) (canvas.h : Int)) canvas.h (by omega),
        pySliceIdx_eq (min (x + (img.w : Int)) (canvas.w : Int)) canvas.w (by omega),
        pySliceIdx_eq (min (y + (img.h : Int)) (canvas.h : Int) - y) img.h (by omega),
        pySliceIdx_eq (min (x + (img.w : Int)) (canvas.w : Int) - x) img.w (by omega)]
    have hbr : broadcastDimOK (min (min (y + (img.h : Int)) (canvas.h : Int) - y).toNat img.h)
        (min (min (y + (img.h : Int)) (canvas.h : Int)).toNat canvas.h - min y.toNat canvas.h)
        = true := by
      simp only [broadcastDimOK, Bool.or_eq_true, decide_eq_true_eq]
      left; omega
    have hbc : broadcastDimOK (min (min (x + (img.w : Int)) (canvas.w : Int) - x).toNat img.w)
        (min (min (x + (img.w : Int)) (canvas.w : Int)).toNat canvas.w - min x.toNat canvas.w)
        = true := by
      simp only [broadcastDimOK, Bool.or_eq_true, decide_eq_true_eq]
      left; omega
    rw [if_pos ⟨hbr, hbc⟩]
    simp only [pixelAt, Option.some.injEq]
    by_cases hR : y ≤ (r : Int) ∧ (r : Int) < min (y + (img.h : Int)) (canvas.h : Int) ∧
        x ≤ (c : Int) ∧ (c : Int) < min (x + (img.w : Int)) (canvas.w : Int)
    · have hNC : min y.toNat canvas.h ≤ r ∧
          r < min (min (y + (img.h : Int)) (canvas.h : Int)).toNat canvas.h ∧
          min x.toNat canvas.w ≤ c ∧
          c < min (min (x + (img.w : Int)) (canvas.w : Int)).toNat canvas.w := by omega
      rw [if_pos hNC, if_pos hR]
      have h1 : (if min (min (y + (img.h : Int)) (canvas.h : Int) - y).toNat img.h = 1
          then 0 else r - min y.toNat canvas.h) = ((r : Int) - y).toNat := by
        split_ifs with hs <;> omega
      have h2 : (if min (min (x + (img.w : Int)) (canvas.w : Int) - x).toNat img.w = 1
          then 0 else c - min x.toNat canvas.w) = ((c : Int) - x).toNat := by
        split_ifs with hs <;> omega
      rw [h1, h2]
    · have hNC : ¬(min y.toNat canvas.h ≤ r ∧
          r < min (min (y + (img.h : Int)) (canvas.h : Int)).toNat canvas.h ∧
          min x.toNat canvas.w ≤ c ∧
          c < min (min (x + (img.w : Int)) (canvas.w : Int)).toNat canvas.w) := by
        intro hcontra
        exact hR (by omega)
      rw [if_neg hNC, if_neg hR]

/-- Witness for C3 (amended): blitting a 2×2 image of value 7 at (3, 1)
onto a white 4×4 canvas writes 7 inside the clipped footprint and leaves an
outside pixel white. -/
theorem C3_blit_clips_witness :
    pixelAt (blit 4 4 demoCanvas4 smallImg 3 1) 1 3 = some 7 ∧
    pixelAt (blit 4 4 demoCanvas4 smallImg 3 1) 0 0 = some 255 := by
  constructor
  · rw [C3_blit_clips 4 4 demoCanvas4 smallImg 3 1 (by decide) (by decide) rfl rfl 1 3]
    decide
  · rw [C3_blit_clips 4 4 demoCanvas4 smallImg 3 1 (by decide) (by decide) rfl rfl 0 0]
    decide

/-- C4 counterexample: rendering the spec's 100×100 stretch/threshold
scenario over a uniform 128 source yields 0 (black) at pixel (0,0), not 255 —
the threshold rule `pixel > 128` sends the value 128 to black. -/
theorem C4_midgray_pixel_black :
    pixelAt (render fs0 grayComp opts0).1 0 0 = some 0 := by rfl

/-- C4 (amended): the scenario's whole 100×100 output is 0 (black): the
stretch resample of the uniform 128 source stays uniform 128, and the
threshold dither sends 128 to 0 because `128 > 128` is false. -/
theorem C4_midgray_all_black (r c : Nat) (hr : r < 100) (hc : c < 100) :
    gridDims (render fs0 grayComp opts0).1 = some (100, 100) ∧
    pixelAt (render fs0 grayComp opts0).1 r c = some 0 := by
  have h : (render fs0 grayComp opts0).1 =
      Except.ok (⟨100, 100, fun r c =>
        if 0 ≤ r ∧ r < 100 ∧ 0 ≤ c ∧ c < 100 then 0 else 255⟩ : Grid) := rfl
  rw [h]
  refine ⟨rfl, ?_⟩
  unfold pixelAt
  simp [hr, hc]

/-- Witness for C4 (amended) at the concrete pixel (3, 4). -/
theorem C4_midgray_all_black_witness :
    gridDims (render fs0 grayComp opts0).1 = some (100, 100) ∧
    pixelAt (render fs0 grayComp opts0).1 3 4 = some 0 :=
  C4_midgray_all_black 3 4 (by decide) (by decide)

/-- C5: the per-layer transform step applies the horizontal flip, then the
vertical flip, then the rotation, in that fixed order, and the number of
counter-clockwise quarter turns equals `(rotate mod 360) / 90`. -/
theorem C5_transform_order (d : ImageLayerData) (g : Grid) :
    transformStage d g =
      rotate_ccw_90^[((d.rotate % 360) / 90).toNat]
        ((if d.flip_v then flip_vertical else id)
          ((if d.flip_h then flip_horizontal else id) g)) := by
  unfold transformStage
  by_cases hr : d.rotate = 0
  · simp [hr]
    cases d.flip_h <;> cases d.flip_v <;> simp
  · simp only [hr, if_pos, ne_eq, not_false_iff, if_true]
    cases d.flip_h <;> cases d.flip_v <;> simp

/-- C6 counterexample: a visible image layer with a 2×2 source at x = 10 on
a 10×10 canvas (footprint width 0) makes `render` raise `InvalidDimension`
from the resize step — it is not a silent no-op. -/
theorem C6_offcanvas_raises :
    (render fs0 offComp opts0).1 = .error .invalidDimension := by rfl

/-- C6 (amended): for every visible image layer with a non-empty in-memory
source placed entirely off the canvas (`x ≥ width` or `y ≥ height`),
rendering the composition fails with `InvalidDimension`: the footprint has a
non-positive dimension, never matches the source's positive shape, and so is
handed to the resize, which rejects it. -/
theorem C6_offcanvas_invalid_dimension (fsys : String → Option Grid) (wid hgt : Nat)
    (layer : Layer) (d : ImageLayerData) (g : Grid) (canvas : Grid) (opts : RenderOptions)
    (hv : layer.visible = true) (hk : layer.kind = .image d)
    (hd : d.image_data = some g) (hh : 0 < g.h) (hw : 0 < g.w)
    (hoff : (wid : Int) ≤ layer.x ∨ (hgt : Int) ≤ layer.y) :
    (render fsys { width := wid, height := hgt, layers := [layer], canvas := canvas }
        opts).1 = .error .invalidDimension := by
  obtain ⟨th, tw⟩ := transformStage_pos d g hh hw
  have himg : renderImageLayer fsys wid hgt layer d
      (⟨hgt, wid, fun _ _ => opts.background_color⟩ : Grid) = .error .invalidDimension := by
    unfold renderImageLayer loadStage
    rw [hd, hv]
    simp only [Bool.true_eq_false, if_false]
    unfold resizeStage resize_image
    rw [if_neg (by omega), if_pos (by omega)]
  unfold render renderLayers renderLayer
  simp only [hk, himg]

/-- Witness for C6 (amended): a 2×2 source at y = 12 on a 10×10 canvas. -/
theorem C6_offcanvas_invalid_dimension_witness :
    (render fs0 { width := 10, height := 10, layers := [offLayerY], canvas := demoCanvas10 }
        opts0).1 = .error .invalidDimension :=
  C6_offcanvas_invalid_dimension fs0 10 10 offLayerY offImgData ⟨2, 2, fun _ _ => 7⟩
    demoCanvas10 opts0 rfl rfl rfl (by decide) (by decide) (Or.inr (by decide))

/-- C7 counterexample: in a composition whose two layers both carry the id
"a", `toggle_layer` succeeds but flips the visibility of the FIRST layer and
leaves the last one untouched — the lookup is first-match, not
last-writer-wins. -/
theorem C7_first_match_counterexample :
    dupComp.layers.map Layer.id = [("a" : String), "a"] ∧
    (toggle_layer dupComp ("a")).1 = true ∧
    (toggle_layer dupComp ("a")).2.layers.map Layer.visible = [false, true] :=
  ⟨rfl, rfl, rfl⟩

/-- C7 (amended): the id-keyed lookup of `update_layer` and `toggle_layer`
affects exactly the first layer bearing the id — all layers before it (none
of which match) and all layers after it, matching or not, are unchanged. -/
theorem C7_first_match_wins (c : EinkComposer) (lid : String) (upd : Layer → Layer)
    (ls₁ ls₂ : List Layer) (l : Layer)
    (hc : c.layers = ls₁ ++ l :: ls₂) (hpre : ∀ l' ∈ ls₁, l'.id ≠ lid) (hl : l.id = lid) :
    update_layer c lid upd = (true, { c with layers := ls₁ ++ upd l :: ls₂ }) ∧
    toggle_layer c lid = (true, { c with layers := ls₁ ++ { l with visible := !l.visible } :: ls₂ }) := by
  unfold update_layer toggle_layer
  rw [hc, updateFirst_append lid upd ls₁ ls₂ l hpre hl, toggleFirst_append lid ls₁ ls₂ l hpre hl]
  exact ⟨rfl, rfl⟩

/-- Witness for C7 (amended): updating x to 5 (and toggling) in a
composition `[id "b", id "a", id "a"]` hits exactly the middle layer. -/
theorem C7_first_match_wins_witness :
    (update_layer dupComp3 ("a") (fun l => { l with x := 5 })).2.layers.map Layer.x
      = [0, 5, 0] ∧
    (toggle_layer dupComp3 ("a")).2.layers.map Layer.visible = [true, false, true] := by
  have h := C7_first_match_wins dupComp3 ("a") (fun l => { l with x := 5 })
    [bLayer] [dupA] dupA rfl
    (by intro l' hl'; simp only [List.mem_singleton] at hl'; subst hl'; decide) rfl
  rw [h.1, h.2]
  exact ⟨rfl, rfl⟩

/-- C8 counterexample: `remove_layer` called with an id borne by no layer
returns `true` — the same value it returns on success — so its boolean does
not indicate that the layer was not found. -/
theorem C8_remove_returns_true :
    (∀ l ∈ dupComp.layers, l.id ≠ "zzz") ∧ (remove_layer dupComp ("zzz")).1 = true := by
  refine ⟨?_, rfl⟩
  intro l hl
  simp only [dupComp, List.mem_cons, List.not_mem_nil, or_false] at hl
  rcases hl with rfl | rfl <;> decide

/-- C8 (amended): with an id borne by no layer, `update_layer` and
`toggle_layer` return `false` and leave the composition unchanged, and
`remove_layer` also leaves the composition unchanged but still returns
`true` (its result never signals a missing id). -/
theorem C8_unknown_id_behavior (c : EinkComposer) (lid : String) (upd : Layer → Layer)
    (habs : ∀ l ∈ c.layers, l.id ≠ lid) :
    update_layer c lid upd = (false, c) ∧
    toggle_layer c lid = (false, c) ∧
    remove_layer c lid = (true, c) := by
  have h3 : c.layers.filter (fun l => l.id ≠ lid) = c.layers :=
    List.filter_eq_self.mpr (by intro a ha; simpa using habs a ha)
  unfold update_layer toggle_layer remove_layer
  rw [updateFirst_not_found lid upd c.layers habs, toggleFirst_not_found lid c.layers habs, h3]
  exact ⟨rfl, rfl, rfl⟩

/-- Witness for C8 (amended) on a concrete composition and the unknown id
"zzz". -/
theorem C8_unknown_id_behavior_witness :
    update_layer dupComp ("zzz") (fun l => { l with x := 5 }) = (false, dupComp) ∧
    toggle_layer dupComp ("zzz") = (false, dupComp) ∧
    remove_layer dupComp ("zzz") = (true, dupComp) :=
  C8_unknown_id_behavior dupComp ("zzz") (fun l => { l with x := 5 })
    (by intro l hl
        simp only [dupComp, List.mem_cons, List.not_mem_nil, or_false] at hl
        rcases hl with rfl | rfl <;> decide)

/-- C9: for every visible rectangle layer, if the bounds clipped against the
canvas are empty the renderer writes nothing (it returns the canvas itself,
raising no error); otherwise a filled rectangle keeps the canvas shape and
overwrites exactly the clipped block with its color, leaving every other
pixel unchanged. -/
theorem C9_rectangle_clipping (wid hgt : Nat) (layer : Layer) (d : RectangleLayerData)
    (canvas : Grid) (r c : Nat) (hv : layer.visible = true) :
    ((max 0 layer.x ≥ min (wid : Int) (layer.x + d.width) ∨
      max 0 layer.y ≥ min (hgt : Int) (layer.y + d.height)) →
        renderRectangleLayer wid hgt layer d canvas = canvas) ∧
    (d.filled = true →
        (renderRectangleLayer wid hgt layer d canvas).h = canvas.h ∧
        (renderRectangleLayer wid hgt layer d canvas).w = canvas.w ∧
        (renderRectangleLayer wid hgt layer d canvas).data r c =
          (if max 0 layer.y ≤ (r : Int) ∧ (r : Int) < min (hgt : Int) (layer.y + d.height) ∧
              max 0 layer.x ≤ (c : Int) ∧ (c : Int) < min (wid : Int) (layer.x + d.width) then
            (d.color : Nat)
          else canvas.data r c)) := by
  unfold renderRectangleLayer
  rw [hv]
  simp only [Bool.true_eq_false, if_false]
  constructor
  · intro hemp
    rw [if_pos hemp]
  · intro hf
    by_cases hemp : max 0 layer.x ≥ min (wid : Int) (layer.x + d.width) ∨
        max 0 layer.y ≥ min (hgt : Int) (layer.y + d.height)
    · rw [if_pos hemp, if_neg (by omega)]
      exact ⟨rfl, rfl, rfl⟩
    · rw [if_neg hemp, if_pos hf]
      exact ⟨rfl, rfl, rfl⟩

/-- Witness for C9: the spec's rectangle at (1000, 1000) on a 250×128
canvas clips to empty and leaves the canvas untouched. -/
theorem C9_rectangle_clipping_witness :
    renderRectangleLayer 250 128 rectOffL rectOffD demoCanvasBig = demoCanvasBig :=
  (C9_rectangle_clipping 250 128 rectOffL rectOffD demoCanvasBig 0 0 rfl).1 (by decide)

/-- C10: an image layer with no in-memory data and an absent or empty path
is silently skipped — the per-layer renderer returns the canvas unchanged
and raises no error. -/
theorem C10_missing_source_skip (fsys : String → Option Grid) (wid hgt : Nat)
    (layer : Layer) (d : ImageLayerData) (canvas : Grid)
    (h1 : d.image_data = none) (h2 : d.image_path = none ∨ d.image_path = some "") :
    renderImageLayer fsys wid hgt layer d canvas = .ok canvas := by
  unfold renderImageLayer loadStage
  rcases h2 with h2 | h2 <;> rw [h1, h2] <;> cases hv : layer.visible <;> simp

/-- Witness for C10 at a concrete layer with all-default image fields. -/
theorem C10_missing_source_skip_witness :
    (({} : ImageLayerData).image_data = none) ∧
    renderImageLayer fs0 10 10 emptyImgLayer {} demoImg = .ok demoImg :=
  ⟨rfl, C10_missing_source_skip fs0 10 10 emptyImgLayer {} demoImg rfl (Or.inl rfl)⟩

end EinkCli
